import Mathlib

/-!
Shallow embedding of the lazy-tensor IR node-identity and reuse subsystem
surrounding `torch/csrc/lazy/ts_backend/ops/device_data.cpp`.

The visible source fragment is the `DeviceData` leaf-node variant:
its constructor (delegating to the `TsNode` base constructor with the
`ltc_device_data` operator tag, the handle's shape, one output and hash
seed 101), `ToString`, the checked downcast `Cast`, and the factory entry
`Create` (reuse lookup guarded by `FLAGS_torch_lazy_reuse_ir`, falling back
to fresh construction).

The collaborators the fragment calls into — the `TsNode`/`Node` base class
and its structural hashing, the hash mixing function, `ReuseNode`,
`MakeNode` and `NodeCast` — live outside the fragment; their definitions
below are modelled from the specification and are marked as such in their
doc comments.  Pointer identity of heap-allocated nodes is modelled by a
`uid` drawn from a monotone counter in the factory state; a C++ `nullptr`-able
`NodePtr` is an `Option Node`; a possibly-null `shared_ptr<BackendData>` is
an `Option BackendData`.
-/

/-- Structural hashes are 64-bit machine integers; arithmetic that overflows
is reduced modulo `2 ^ 64 = 18446744073709551616`. -/
def hashModulus : Nat := 18446744073709551616

/-- Modelled from the spec: the fixed, order-sensitive (non-commutative)
mixing function the Node base class uses to fold the per-operator seed and
the input hashes together (the hashing header is outside the fragment; the
spec fixes only that mixing is deterministic and order-sensitive).  The
running hash is scaled before the next component is added, so the two
arguments play asymmetric roles. -/
def hashCombine (h v : Nat) : Nat := (2 * h + v) % hashModulus

/-- Modelled from the spec: a stable hash of an interned operator-tag
string, used to let the operator tag contribute to the structural hash. -/
def stringHash (s : String) : Nat :=
  s.data.foldl (fun h c => hashCombine h c.toNat) 5381

/-- A tensor shape: the ordered list of dimension sizes. -/
structure Shape where
  dims : List Nat
deriving DecidableEq, Repr

/-- Modelled from the spec: the contribution of a shape to the structural
hash. -/
def shapeHash (s : Shape) : Nat := s.dims.foldl hashCombine 7919

/-- An interned operator tag (`OpKind`), identified by its qualified name. -/
structure OpKind where
  name : String
deriving DecidableEq, Repr

/-- Modelled from the spec: hash of an operator tag. -/
def opKindHash (op : OpKind) : Nat := stringHash op.name

/-- The "device data" operator tag (`ltc_device_data` from the internal-ops
registry). -/
def ltc_device_data : OpKind := ⟨"lazy_tensors::device_data"⟩

/-- A backend data handle: opaque, shared-ownership reference to
device-resident storage, exposing `shape()` and `device()`.  `handleId`
models the identity of the underlying `shared_ptr` (two distinct handles
have distinct `handleId`, whatever their shape and device). -/
structure BackendData where
  handleId : Nat
  shape : Shape
  device : String
deriving DecidableEq, Repr

/-- Modelled from the spec: the structural hash computed by the Node base
constructor before any inputs are mixed in — a pure function of the
operator tag, the output shapes, the output count and the per-operator
seed. -/
def nodeBaseHash (op : OpKind) (shapes : List Shape) (num_outputs seed : Nat) : Nat :=
  hashCombine
    (hashCombine ((shapes.map shapeHash).foldl hashCombine (opKindHash op)) num_outputs)
    seed

/-- Modelled from the spec: the structural hash of a node — the base hash
folded with the hashes of the input nodes, in order, via the fixed
order-sensitive mixing function. -/
def nodeHash (op : OpKind) (shapes : List Shape) (num_outputs seed : Nat)
    (inputHashes : List Nat) : Nat :=
  inputHashes.foldl hashCombine (nodeBaseHash op shapes num_outputs seed)

/-- An IR graph node (the `Node`/`TsNode` base, plus the `DeviceData`
variant's payload).  `uid` models the address of the heap allocation
(pointer identity); `inputs` holds the structural hashes of the input
nodes in order; `data` is the `data_` member of the `DeviceData` variant
(`none` for every other variant). -/
structure Node where
  uid : Nat
  op : OpKind
  shapes : List Shape
  num_outputs : Nat
  seed : Nat
  inputs : List Nat
  hash : Nat
  data : Option BackendData
deriving DecidableEq, Repr

/-- Modelled from the spec: the Node base constructor — records the tag,
shapes, output count and seed, and computes the structural hash at
construction time from exactly those plus the input hashes in order
(never from `uid`, i.e. the allocation, nor from the variant payload). -/
def Node.make (uid : Nat) (op : OpKind) (shapes : List Shape) (num_outputs seed : Nat)
    (inputHashes : List Nat) (data : Option BackendData) : Node :=
  { uid := uid
    op := op
    shapes := shapes
    num_outputs := num_outputs
    seed := seed
    inputs := inputHashes
    hash := nodeHash op shapes num_outputs seed inputHashes
    data := data }

/-- The `DeviceData` constructor body (device_data.cpp:11-17): delegate to
the base with the `ltc_device_data` tag, the handle's shape, one output and
hash seed 101, then store the handle in `data_`.  A leaf: no inputs. -/
def DeviceData.ctorNode (uid : Nat) (data : BackendData) : Node :=
  Node.make uid ltc_device_data [data.shape] 1 101 [] (some data)

/-- Outcome of running the `DeviceData` constructor on a possibly-null
handle.  The constructor's initialiser list evaluates `data->shape()`
before anything else; on a null handle that is an immediate null-pointer
dereference (undefined behaviour, modelled as `nullDereference`).
`checkedRejection` is the outcome a defensive validity check would
produce; the fragment contains no such check, so no code path yields it. -/
inductive CtorError where
  | nullDereference : CtorError
  | checkedRejection : CtorError
deriving DecidableEq, Repr

/-- The `DeviceData` constructor on a possibly-null `shared_ptr<BackendData>`
(device_data.cpp:11-17).  There is no validity check: a null handle is
dereferenced by `data->shape()` in the initialiser list. -/
def DeviceData.construct (uid : Nat) (data : Option BackendData) : Except CtorError Node :=
  match data with
  | none => Except.error CtorError.nullDereference
  | some d => Except.ok (DeviceData.ctorNode uid d)

/-- State threaded through the factory: the global reuse flag
`FLAGS_torch_lazy_reuse_ir`, the allocation counter modelling fresh heap
addresses, and the reuse cache (spec: a trie; modelled as the list of
cached nodes, most recently inserted first). -/
structure FactoryState where
  FLAGS_torch_lazy_reuse_ir : Bool
  nextId : Nat
  cache : List Node
deriving DecidableEq, Repr

/-- Modelled from the spec: the reuse-cache match predicate for the
`DeviceData` variant — a cached node is reusable for a request iff it
carries the device-data operator tag and its stored handle has the same
identity as the requested handle (reuse for this leaf variant is keyed
additionally by handle identity). -/
def reusePred (hid : Nat) (n : Node) : Bool :=
  decide (n.op = ltc_device_data) &&
    (match n.data with
     | some d => decide (d.handleId = hid)
     | none => false)

/-- Modelled from the spec: `ReuseNode<DeviceData>` / the Reuse Cache's
`tryReuse` — walk the cache under the device-data operator tag for a live
node whose handle identity matches, returning it on a hit and nothing on a
miss. -/
def ReuseNodeDeviceData (s : FactoryState) (data : BackendData) : Option Node :=
  s.cache.find? (reusePred data.handleId)

/-- Modelled from the spec: `MakeNode<DeviceData>` (Node Factory) —
construct a fresh instance via the variant's constructor at a fresh
address, and, when reuse is enabled, insert it into the Reuse Cache. -/
def MakeNodeDeviceData (s : FactoryState) (data : BackendData) : Node × FactoryState :=
  let node := DeviceData.ctorNode s.nextId data
  (node,
   { s with
       nextId := s.nextId + 1
       cache := if s.FLAGS_torch_lazy_reuse_ir then node :: s.cache else s.cache })

/-- `DeviceData::Create` (device_data.cpp:29-38): start from a null
`NodePtr`; if `FLAGS_torch_lazy_reuse_ir` is set, attempt the reuse
lookup; if the pointer is still null, build a fresh node; return it. -/
def DeviceData.Create (s : FactoryState) (data : BackendData) : Option Node × FactoryState :=
  let node : Option Node :=
    if s.FLAGS_torch_lazy_reuse_ir then ReuseNodeDeviceData s data else none
  match node with
  | some n => (some n, s)
  | none =>
    let p := MakeNodeDeviceData s data
    (some p.1, p.2)

/-- `DeviceData::Cast` (device_data.cpp:25-27), delegating to `NodeCast`
(modelled from the spec: a checked downcast driven by comparing the stored
operator tag against `ltc_device_data`, returning a typed absence on
mismatch). -/
def DeviceData.Cast (node : Node) : Option Node :=
  if node.op = ltc_device_data then some node else none

/-- Modelled from the spec: the base `TsNode::ToString` human-readable
description (its body is outside the fragment; the spec fixes no format,
only that it describes the node). -/
def TsNode.ToString (n : Node) : String := n.op.name

/-- `DeviceData::ToString` (device_data.cpp:19-23): the base description,
then ", device=", then `data_->device()`.  The `data_` dereference is
modelled through the `Option`: a node without the payload has no
well-defined description. -/
def DeviceData.ToString (n : Node) : Option String :=
  Option.map (fun d => TsNode.ToString n ++ ", device=" ++ d.device) n.data

/-- Unfolding lemma: with reuse enabled and a cache hit, `Create` returns
the cached node and leaves the state untouched. -/
theorem create_hit (s : FactoryState) (d : BackendData) (m : Node)
    (hf : s.FLAGS_torch_lazy_reuse_ir = true) (hr : ReuseNodeDeviceData s d = some m) :
    DeviceData.Create s d = (some m, s) := by
  simp [DeviceData.Create, hf, hr]

/-- Unfolding lemma: with reuse enabled and a cache miss, `Create` builds a
fresh node at the next address and inserts it into the cache. -/
theorem create_miss (s : FactoryState) (d : BackendData)
    (hf : s.FLAGS_torch_lazy_reuse_ir = true) (hr : ReuseNodeDeviceData s d = none) :
    DeviceData.Create s d =
      (some (DeviceData.ctorNode s.nextId d),
       { s with nextId := s.nextId + 1, cache := DeviceData.ctorNode s.nextId d :: s.cache }) := by
  simp [DeviceData.Create, MakeNodeDeviceData, hf, hr]

/-- Unfolding lemma: with reuse disabled, `Create` performs no lookup and no
insertion, and builds a fresh node at the next address. -/
theorem create_disabled (s : FactoryState) (d : BackendData)
    (hf : s.FLAGS_torch_lazy_reuse_ir = false) :
    DeviceData.Create s d =
      (some (DeviceData.ctorNode s.nextId d), { s with nextId := s.nextId + 1 }) := by
  simp [DeviceData.Create, MakeNodeDeviceData, hf]

/-- A cached node matched by the reuse predicate carries the device-data tag
and a handle of the requested identity. -/
theorem reusePred_spec (hid : Nat) (m : Node) (hp : reusePred hid m = true) :
    m.op = ltc_device_data ∧ ∃ d', m.data = some d' ∧ d'.handleId = hid := by
  unfold reusePred at hp
  simp only [Bool.and_eq_true, decide_eq_true_eq] at hp
  obtain ⟨hop, hdata⟩ := hp
  refine ⟨hop, ?_⟩
  cases hd : m.data with
  | none => rw [hd] at hdata; simp at hdata
  | some d' =>
    rw [hd] at hdata
    simp only [decide_eq_true_eq] at hdata
    exact ⟨d', rfl, hdata⟩

/-- Every node handed out by `DeviceData::Create` carries the device-data
operator tag and stores a handle with the identity of the requested
handle (on a cache hit this comes from the match predicate, on a miss
from the constructor). -/
theorem create_some_spec (s : FactoryState) (d : BackendData) (n : Node)
    (h : (DeviceData.Create s d).1 = some n) :
    n.op = ltc_device_data ∧ ∃ d', n.data = some d' ∧ d'.handleId = d.handleId := by
  cases hf : s.FLAGS_torch_lazy_reuse_ir with
  | true =>
    cases hr : ReuseNodeDeviceData s d with
    | some m =>
      rw [create_hit s d m hf hr] at h
      simp only [Option.some.injEq] at h
      rw [← h]
      exact reusePred_spec d.handleId m (List.find?_some hr)
    | none =>
      rw [create_miss s d hf hr] at h
      simp only [Option.some.injEq] at h
      subst h
      exact ⟨rfl, d, rfl, rfl⟩
  | false =>
    rw [create_disabled s d hf] at h
    simp only [Option.some.injEq] at h
    subst h
    exact ⟨rfl, d, rfl, rfl⟩

/-- `DeviceData::Create` never returns a null pointer. -/
theorem create_exists_some (s : FactoryState) (d : BackendData) :
    ∃ n, (DeviceData.Create s d).1 = some n := by
  cases hf : s.FLAGS_torch_lazy_reuse_ir with
  | true =>
    cases hr : ReuseNodeDeviceData s d with
    | some m => rw [create_hit s d m hf hr]; exact ⟨m, rfl⟩
    | none => rw [create_miss s d hf hr]; exact ⟨_, rfl⟩
  | false => rw [create_disabled s d hf]; exact ⟨_, rfl⟩

/-- Claim C2: for every two non-null backend handles with equal shape, the
DeviceData nodes constructed from them have equal structural hash; the
constructor derives the hash only from the device-data operator tag, the
handle's shape, the output count 1 and the constant seed 101, with no
contribution from handle identity or construction order. -/
theorem deviceData_hash_shape_only (u1 u2 : Nat) (d1 d2 : BackendData)
    (h : d1.shape = d2.shape) :
    (DeviceData.ctorNode u1 d1).hash = (DeviceData.ctorNode u2 d2).hash ∧
    (DeviceData.ctorNode u1 d1).hash = nodeHash ltc_device_data [d1.shape] 1 101 [] := by
  constructor
  · show nodeHash ltc_device_data [d1.shape] 1 101 [] =
      nodeHash ltc_device_data [d2.shape] 1 101 []
    rw [h]
  · rfl

/-- Witness for C2: two handles of identical shape but different identity
and different device yield the same structural hash. -/
theorem deviceData_hash_shape_only_witness :
    (BackendData.mk 0 ⟨[2, 3]⟩ "cuda:0").shape = (BackendData.mk 1 ⟨[2, 3]⟩ "cpu").shape ∧
    (DeviceData.ctorNode 0 (BackendData.mk 0 ⟨[2, 3]⟩ "cuda:0")).hash =
      (DeviceData.ctorNode 7 (BackendData.mk 1 ⟨[2, 3]⟩ "cpu")).hash :=
  ⟨rfl, (deviceData_hash_shape_only 0 7 _ _ rfl).1⟩

/-- Claim C5, counterexample: passing a null handle to the DeviceData
constructor is not rejected by a defensive check — the constructor
dereferences the null handle at `data->shape()` (undefined behaviour),
which is a different outcome from the checked rejection the claim
asserts. -/
theorem deviceData_null_handle_cex :
    DeviceData.construct 0 none = Except.error CtorError.nullDereference ∧
    DeviceData.construct 0 none ≠ Except.error CtorError.checkedRejection := by
  constructor
  · rfl
  · intro h
    simp [DeviceData.construct] at h

/-- Claim C5, amended: the DeviceData constructor contains no defensive
validity check; a null handle is dereferenced immediately in the
initialiser list (undefined behaviour, modelled as a crash), and no node —
partially valid or otherwise — is ever produced from a null handle. -/
theorem deviceData_null_handle_amended (uid : Nat) :
    DeviceData.construct uid none = Except.error CtorError.nullDereference := rfl

/-- Claim C7: every DeviceData node, however constructed, has its operator
tag fixed to the device-data tag, zero input nodes, exactly one output
whose shape equals the wrapped handle's shape, and the fixed leaf seed
101. -/
theorem deviceData_node_attributes (uid : Nat) (d : BackendData) :
    (DeviceData.ctorNode uid d).op = ltc_device_data ∧
    (DeviceData.ctorNode uid d).inputs = [] ∧
    (DeviceData.ctorNode uid d).shapes = [d.shape] ∧
    (DeviceData.ctorNode uid d).num_outputs = 1 ∧
    (DeviceData.ctorNode uid d).seed = 101 :=
  ⟨rfl, rfl, rfl, rfl, rfl⟩

/-- Claim C8: the structural hash of a node is a pure function of its
operator tag, its input node hashes in order, its operator-specific
literal parameters (shapes, output count) and the per-operator seed: two
structurally identical construction requests — even at different
allocation sites (`u1`, `u2`) and with different variant payloads — yield
the same hash, namely `nodeHash` of exactly those components. -/
theorem node_structural_hash_pure (u1 u2 : Nat) (op : OpKind) (shapes : List Shape)
    (k seed : Nat) (inputHashes : List Nat) (p1 p2 : Option BackendData) :
    (Node.make u1 op shapes k seed inputHashes p1).hash =
      (Node.make u2 op shapes k seed inputHashes p2).hash ∧
    (Node.make u1 op shapes k seed inputHashes p1).hash =
      nodeHash op shapes k seed inputHashes :=
  ⟨rfl, rfl⟩

/-- Claim C9: hash mixing is order-sensitive (not commutative) — for a
two-input operator node whose two input hashes differ (as 64-bit values),
swapping the order of the inputs changes the resulting structural
hash. -/
theorem hash_mixing_order_sensitive (op : OpKind) (shapes : List Shape)
    (k seed h1 h2 : Nat) (hb1 : h1 < hashModulus) (hb2 : h2 < hashModulus)
    (hne : h1 ≠ h2) :
    nodeHash op shapes k seed [h1, h2] ≠ nodeHash op shapes k seed [h2, h1] := by
  unfold nodeHash
  simp only [List.foldl_cons, List.foldl_nil]
  generalize nodeBaseHash op shapes k seed = B
  simp only [hashCombine, hashModulus] at hb1 hb2 ⊢
  omega

/-- Witness for C9: a concrete two-input node whose swapped inputs hash
differently. -/
theorem hash_mixing_order_sensitive_witness :
    (1 : Nat) < hashModulus ∧ (2 : Nat) < hashModulus ∧ (1 : Nat) ≠ 2 ∧
    nodeHash ltc_device_data [] 1 7 [1, 2] ≠ nodeHash ltc_device_data [] 1 7 [2, 1] :=
  ⟨by decide, by decide, by decide,
   hash_mixing_order_sensitive ltc_device_data [] 1 7 1 2 (by decide) (by decide)
     (by decide)⟩

/-- Claim C10: for every handle and regardless of the reuse flag,
`DeviceData::Create` returns a non-null `NodePtr`; whenever the reuse
lookup yields nothing (or reuse is disabled), it falls back to the freshly
constructed node and returns that. -/
theorem deviceData_create_nonnull (s : FactoryState) (d : BackendData) :
    (DeviceData.Create s d).1.isSome = true ∧
    ((s.FLAGS_torch_lazy_reuse_ir = false ∨ ReuseNodeDeviceData s d = none) →
      (DeviceData.Create s d).1 = some (DeviceData.ctorNode s.nextId d)) := by
  constructor
  · obtain ⟨n, hn⟩ := create_exists_some s d
    rw [hn]
    rfl
  · intro h
    cases hf : s.FLAGS_torch_lazy_reuse_ir with
    | false => rw [create_disabled s d hf]
    | true =>
      cases h with
      | inl hfalse => rw [hf] at hfalse; exact absurd hfalse (by decide)
      | inr hr => rw [create_miss s d hf hr]

/-- Witness for C10: on an empty cache the lookup misses and the freshly
constructed node is returned. -/
theorem deviceData_create_nonnull_witness :
    (DeviceData.Create ⟨true, 0, []⟩ ⟨5, ⟨[4]⟩, "cpu"⟩).1 =
      some (DeviceData.ctorNode 0 ⟨5, ⟨[4]⟩, "cpu"⟩) :=
  (deviceData_create_nonnull ⟨true, 0, []⟩ ⟨5, ⟨[4]⟩, "cpu"⟩).2 (Or.inr rfl)

/-- Claim C1: with reuse enabled, two calls to `DeviceData::Create` with
the same backend handle return the same node instance, while a call with a
different handle — even of identical shape and device, and hence with a
colliding structural hash — returns a distinct node instance. -/
theorem deviceData_create_reuse_by_handle (s : FactoryState) (dA dB : BackendData)
    (hre : s.FLAGS_torch_lazy_reuse_ir = true) (hne : dA.handleId ≠ dB.handleId) :
    (DeviceData.Create (DeviceData.Create s dA).2 dA).1 = (DeviceData.Create s dA).1 ∧
    (DeviceData.Create (DeviceData.Create s dA).2 dB).1 ≠ (DeviceData.Create s dA).1 := by
  constructor
  · cases hr : ReuseNodeDeviceData s dA with
    | some m =>
      rw [create_hit s dA m hre hr]
      rw [create_hit s dA m hre hr]
    | none =>
      rw [create_miss s dA hre hr]
      show (DeviceData.Create
          { s with
              nextId := s.nextId + 1
              cache := DeviceData.ctorNode s.nextId dA :: s.cache } dA).1 =
        some (DeviceData.ctorNode s.nextId dA)
      have hp : reusePred dA.handleId (DeviceData.ctorNode s.nextId dA) = true := by
        simp [reusePred, DeviceData.ctorNode, Node.make]
      have hr2 : ReuseNodeDeviceData
          { s with
              nextId := s.nextId + 1
              cache := DeviceData.ctorNode s.nextId dA :: s.cache } dA =
          some (DeviceData.ctorNode s.nextId dA) := by
        unfold ReuseNodeDeviceData
        exact List.find?_cons_of_pos _ hp
      rw [create_hit
        { s with
            nextId := s.nextId + 1
            cache := DeviceData.ctorNode s.nextId dA :: s.cache } dA
        (DeviceData.ctorNode s.nextId dA) hre hr2]
  · obtain ⟨n1, hn1⟩ := create_exists_some s dA
    obtain ⟨n2, hn2⟩ := create_exists_some (DeviceData.Create s dA).2 dB
    rw [hn1, hn2]
    obtain ⟨-, d1', hd1, hid1⟩ := create_some_spec s dA n1 hn1
    obtain ⟨-, d2', hd2, hid2⟩ := create_some_spec _ dB n2 hn2
    intro h
    simp only [Option.some.injEq] at h
    rw [h] at hd2
    have heq : d1' = d2' := Option.some.inj (hd1.symm.trans hd2)
    apply hne
    rw [← hid1, ← hid2, heq]

/-- Witness for C1: starting from an empty cache with reuse on, repeating a
handle reuses the node, while a second handle of identical shape and
device yields a distinct node. -/
theorem deviceData_create_reuse_by_handle_witness :
    (DeviceData.Create (DeviceData.Create ⟨true, 0, []⟩ ⟨0, ⟨[2]⟩, "cuda:0"⟩).2
        ⟨0, ⟨[2]⟩, "cuda:0"⟩).1 =
      (DeviceData.Create ⟨true, 0, []⟩ ⟨0, ⟨[2]⟩, "cuda:0"⟩).1 ∧
    (DeviceData.Create (DeviceData.Create ⟨true, 0, []⟩ ⟨0, ⟨[2]⟩, "cuda:0"⟩).2
        ⟨1, ⟨[2]⟩, "cuda:0"⟩).1 ≠
      (DeviceData.Create ⟨true, 0, []⟩ ⟨0, ⟨[2]⟩, "cuda:0"⟩).1 :=
  deviceData_create_reuse_by_handle ⟨true, 0, []⟩ ⟨0, ⟨[2]⟩, "cuda:0"⟩ ⟨1, ⟨[2]⟩, "cuda:0"⟩
    rfl (by decide)

/-- Claim C3: when the reuse flag is disabled, `DeviceData::Create` skips
the cache lookup and insertion entirely and always constructs a fresh
node, so two structurally identical requests — even with the same
handle — return distinct node instances. -/
theorem deviceData_create_reuse_disabled (s : FactoryState) (d : BackendData)
    (hre : s.FLAGS_torch_lazy_reuse_ir = false) :
    (DeviceData.Create s d).1 = some (DeviceData.ctorNode s.nextId d) ∧
    (DeviceData.Create s d).2.cache = s.cache ∧
    (DeviceData.Create (DeviceData.Create s d).2 d).1 ≠ (DeviceData.Create s d).1 := by
  rw [create_disabled s d hre]
  refine ⟨rfl, rfl, ?_⟩
  show (DeviceData.Create { s with nextId := s.nextId + 1 } d).1 ≠
    some (DeviceData.ctorNode s.nextId d)
  rw [create_disabled { s with nextId := s.nextId + 1 } d hre]
  intro h
  simp only [Option.some.injEq] at h
  have huid := congrArg Node.uid h
  simp only [DeviceData.ctorNode, Node.make] at huid
  omega

/-- Witness for C3: with reuse off, repeating the same handle from a fresh
state yields a different node the second time. -/
theorem deviceData_create_reuse_disabled_witness :
    (DeviceData.Create ⟨false, 0, []⟩ ⟨3, ⟨[2]⟩, "cpu"⟩).1 =
      some (DeviceData.ctorNode 0 ⟨3, ⟨[2]⟩, "cpu"⟩) ∧
    (DeviceData.Create (DeviceData.Create ⟨false, 0, []⟩ ⟨3, ⟨[2]⟩, "cpu"⟩).2
        ⟨3, ⟨[2]⟩, "cpu"⟩).1 ≠
      (DeviceData.Create ⟨false, 0, []⟩ ⟨3, ⟨[2]⟩, "cpu"⟩).1 :=
  ⟨(deviceData_create_reuse_disabled ⟨false, 0, []⟩ ⟨3, ⟨[2]⟩, "cpu"⟩ rfl).1,
   (deviceData_create_reuse_disabled ⟨false, 0, []⟩ ⟨3, ⟨[2]⟩, "cpu"⟩ rfl).2.2⟩

/-- Claim C4: `DeviceData::Cast` is a checked downcast on the operator tag —
it returns the node itself when the tag is the device-data tag, a typed
absence (`none`, no exception or panic) for every other tag, and in
particular a match for every node produced by `DeviceData::Create`. -/
theorem deviceData_cast_checked (node n : Node) (s : FactoryState) (d : BackendData) :
    (node.op = ltc_device_data → DeviceData.Cast node = some node) ∧
    (node.op ≠ ltc_device_data → DeviceData.Cast node = none) ∧
    ((DeviceData.Create s d).1 = some n → DeviceData.Cast n = some n) := by
  refine ⟨fun h => ?_, fun h => ?_, fun h => ?_⟩
  · simp [DeviceData.Cast, h]
  · simp [DeviceData.Cast, h]
  · have hop := (create_some_spec s d n h).1
    simp [DeviceData.Cast, hop]

/-- Witness for C4: a created DeviceData node casts to a match, while a
node of a different operator tag casts to a typed absence. -/
theorem deviceData_cast_checked_witness :
    DeviceData.Cast (DeviceData.ctorNode 0 ⟨0, ⟨[1]⟩, "cpu"⟩) =
      some (DeviceData.ctorNode 0 ⟨0, ⟨[1]⟩, "cpu"⟩) ∧
    DeviceData.Cast (Node.make 5 ⟨"aten::add"⟩ [⟨[1]⟩] 1 17 [1, 2] none) = none ∧
    DeviceData.Cast (DeviceData.ctorNode 0 ⟨9, ⟨[1]⟩, "cpu"⟩) =
      some (DeviceData.ctorNode 0 ⟨9, ⟨[1]⟩, "cpu"⟩) :=
  ⟨(deviceData_cast_checked (DeviceData.ctorNode 0 ⟨0, ⟨[1]⟩, "cpu"⟩)
      (DeviceData.ctorNode 0 ⟨0, ⟨[1]⟩, "cpu"⟩) ⟨true, 0, []⟩ ⟨0, ⟨[1]⟩, "cpu"⟩).1 rfl,
   (deviceData_cast_checked (Node.make 5 ⟨"aten::add"⟩ [⟨[1]⟩] 1 17 [1, 2] none)
      (Node.make 5 ⟨"aten::add"⟩ [⟨[1]⟩] 1 17 [1, 2] none) ⟨true, 0, []⟩
      ⟨0, ⟨[1]⟩, "cpu"⟩).2.1 (by decide),
   (deviceData_cast_checked (DeviceData.ctorNode 0 ⟨9, ⟨[1]⟩, "cpu"⟩)
      (DeviceData.ctorNode 0 ⟨9, ⟨[1]⟩, "cpu"⟩) ⟨true, 0, []⟩ ⟨9, ⟨[1]⟩, "cpu"⟩).2.2 rfl⟩

/-- Claim C6: for every DeviceData node, `ToString` returns the base node
description followed by the suffix ", device=" and the referenced handle's
device identifier; in particular the description contains the literal
substring "device=" followed by the device identifier. -/
theorem deviceData_toString_device (n : Node) (d : BackendData) (h : n.data = some d) :
    DeviceData.ToString n = some (TsNode.ToString n ++ ", device=" ++ d.device) ∧
    List.IsInfix ("device=" ++ d.device).data
      (TsNode.ToString n ++ ", device=" ++ d.device).data := by
  constructor
  · simp [DeviceData.ToString, h]
  · refine ⟨(TsNode.ToString n ++ ", ").data, [], ?_⟩
    simp only [String.data_append, List.append_nil, List.append_assoc]
    rfl

/-- Witness for C6: a concrete DeviceData node's description ends in
", device=cuda:1". -/
theorem deviceData_toString_device_witness :
    (DeviceData.ctorNode 0 ⟨2, ⟨[3]⟩, "cuda:1"⟩).data =
      some (BackendData.mk 2 ⟨[3]⟩ "cuda:1") ∧
    DeviceData.ToString (DeviceData.ctorNode 0 ⟨2, ⟨[3]⟩, "cuda:1"⟩) =
      some (TsNode.ToString (DeviceData.ctorNode 0 ⟨2, ⟨[3]⟩, "cuda:1"⟩) ++
        ", device=" ++ "cuda:1") :=
  ⟨rfl, (deviceData_toString_device (DeviceData.ctorNode 0 ⟨2, ⟨[3]⟩, "cuda:1"⟩)
    (BackendData.mk 2 ⟨[3]⟩ "cuda:1") rfl).1⟩
